import Mathlib

/-!
Shallow embedding of the event dispatch core of the Smart-DevOps-Assistant
repository: the event envelope (app/events/base.py together with the concrete
event modules), the in-memory event store (app/events/event_store.py), the
event bus (app/events/event_bus.py) and the shipped middleware
(app/events/middleware.py).

Modelling conventions:
- UUID values are abstracted as natural numbers; uuid4() and the current UTC
  time are nondeterministic environment inputs and are passed to each
  constructor explicitly through a `Gen` record.
- Python float values appearing in range checks are modelled as rationals;
  the checks in the source are plain order comparisons, which rationals
  reproduce exactly.
- A Python dict with string keys is modelled as an association list in
  insertion order; update replaces the value of an existing key in place and
  appends a fresh key at the end, as Python dict update does.
- Python exceptions are modelled with `Except String`; a function that can
  raise returns `Except String α`, a function in which every exception is
  caught is total.
-/

/-- UUID values, abstracted as natural numbers. -/
abbrev UUID := Nat

/-- Values stored in the free-form metadata bag (Dict[str, Any] in the
source); only the shapes the shipped middleware actually writes are needed:
numbers (timestamps), strings, and lists of strings. -/
inductive MetaValue where
  | num (q : ℚ)
  | str (s : String)
  | strList (l : List String)
deriving DecidableEq

/-- The metadata bag: a string-keyed dict in insertion order. -/
abbrev Metadata := List (String × MetaValue)

/-- Dict key lookup. -/
def metaLookup : Metadata → String → Option MetaValue
  | [], _ => none
  | p :: rest, k => if p.1 = k then some p.2 else metaLookup rest k

/-- Dict update `{**m, k: v}` restricted to one key: replaces the value of an
existing key in place, appends a fresh key at the end. -/
def metaInsert : Metadata → String → MetaValue → Metadata
  | [], k, v => [(k, v)]
  | p :: rest, k, v => if p.1 = k then (k, v) :: rest else p :: metaInsert rest k v

/-- The event envelope of app/events/base.py as the bus and the store see it:
identity, aggregate linkage, timestamp, schema version, the type tag used as
the dispatch key, and the metadata bag. Concrete business fields play no role
in dispatch or storage. -/
structure DomainEvent where
  aggregate_id : UUID
  event_id : UUID
  occurred_at : ℚ
  version : Int
  event_type : String
  metadata : Metadata
deriving DecidableEq

/-! ## Event store (app/events/event_store.py, InMemoryEventStore) -/

/-- The `_events` dict of InMemoryEventStore, keyed by aggregate id. -/
structure InMemoryEventStore where
  events : List (UUID × List DomainEvent)
deriving DecidableEq

namespace InMemoryEventStore

/-- A fresh store: `self._events = \x7b\x7d` (event_store.py line 29). -/
def empty : InMemoryEventStore := { events := [] }

/-- Dict lookup on the `_events` association list. -/
def lookupKey : List (UUID × List DomainEvent) → UUID → Option (List DomainEvent)
  | [], _ => none
  | p :: rest, k => if p.1 = k then some p.2 else lookupKey rest k

/-- Dict update on the `_events` association list: replace in place or append
a fresh key. -/
def setKey : List (UUID × List DomainEvent) → UUID → List DomainEvent → List (UUID × List DomainEvent)
  | [], k, v => [(k, v)]
  | p :: rest, k, v => if p.1 = k then (k, v) :: rest else p :: setKey rest k v

/-- save_events (event_store.py lines 31-37): makes sure the key exists, then
extends the stored list with the new events. The expected_version parameter
is accepted but never read: the source performs no optimistic-concurrency
check and has no failure path at all. -/
def save_events (s : InMemoryEventStore) (aggregate_id : UUID)
    (events : List DomainEvent) (expected_version : Option Nat) : InMemoryEventStore :=
  { events := setKey s.events aggregate_id
      (((lookupKey s.events aggregate_id).getD []) ++ events) }

/-- get_events (event_store.py lines 39-46): `self._events.get(aggregate_id, [])`,
then an optional slice `events[from_version:]` from a 0-based offset. -/
def get_events (s : InMemoryEventStore) (aggregate_id : UUID)
    (from_version : Option Nat) : List DomainEvent :=
  let events := (lookupKey s.events aggregate_id).getD []
  match from_version with
  | some k => events.drop k
  | none => events

theorem lookupKey_setKey_self (l : List (UUID × List DomainEvent)) (k : UUID)
    (v : List DomainEvent) : lookupKey (setKey l k v) k = some v := by
  induction l with
  | nil => simp [setKey, lookupKey]
  | cons p rest ih =>
    by_cases h : p.1 = k
    · simp [setKey, lookupKey, h]
    · simp [setKey, lookupKey, h, ih]

end InMemoryEventStore

/-- A concrete envelope value used as a test vector for the store. -/
def sampleEvent : DomainEvent :=
  { aggregate_id := 7, event_id := 42, occurred_at := 1000, version := 1,
    event_type := "SimpleEvent", metadata := [] }

open InMemoryEventStore in
/-- C6: appending a batch and then reading the same aggregate returns the
previously stored events followed by the batch, in order; reading with
fromVersion = k returns exactly the suffix of the stored sequence from
0-based index k. -/
theorem append_then_get_roundtrip (s : InMemoryEventStore) (a : UUID)
    (evs : List DomainEvent) (expected_version : Option Nat) (k : Nat) :
    get_events (save_events s a evs expected_version) a none =
      get_events s a none ++ evs ∧
    (∀ (s2 : InMemoryEventStore) (a2 : UUID),
      get_events s2 a2 (some k) = (get_events s2 a2 none).drop k) := by
  constructor
  · simp [get_events, save_events, lookupKey_setKey_self]
  · intro s2 a2
    simp [get_events]

open InMemoryEventStore in
/-- C1 (code bug): save_events never reads expected_version, so a stale
expected version is silently accepted and the whole batch is written. On the
failing input — a fresh store whose aggregate 0 has recorded version 0 and a
call with expected_version = 5 — the call succeeds and a subsequent
get_events shows the full write, where the claim demands a
concurrency-conflict failure and an unchanged log. -/
theorem save_events_ignores_stale_expected_version :
    (∀ (s : InMemoryEventStore) (a : UUID) (evs : List DomainEvent) (v : Nat),
      save_events s a evs (some v) = save_events s a evs none) ∧
    get_events (save_events InMemoryEventStore.empty 0 [sampleEvent] (some 5)) 0 none
      = [sampleEvent] := by
  refine ⟨fun s a evs v => rfl, ?_⟩
  simp [get_events, save_events, InMemoryEventStore.empty, setKey, lookupKey]

/-! ## Event bus (app/events/event_bus.py, EventBus) -/

/-- A subscribed handler: consumes one event, returns nothing or raises. -/
abbrev Handler := DomainEvent → Except String Unit

/-- A middleware stage: maps an event to an event, or raises. -/
abbrev Middleware := DomainEvent → Except String DomainEvent

/-- The bus state (event_bus.py lines 21-26): the handler registry keyed by
the concrete event type (whose name is the event_type tag set in
base.py line 27), the ordered middleware list, and the dead letter queue. -/
structure EventBus where
  handlers : List (String × List Handler)
  middleware : List Middleware
  dead_letter_queue : List DomainEvent

namespace EventBus

/-- Registry update for subscribe: defaultdict(list) access followed by
append, so a duplicate registration yields two entries. -/
def addHandler : List (String × List Handler) → String → Handler → List (String × List Handler)
  | [], k, h => [(k, [h])]
  | p :: rest, k, h => if p.1 = k then (k, p.2 ++ [h]) :: rest else p :: addHandler rest k h

/-- subscribe (event_bus.py lines 28-37). -/
def subscribe (bus : EventBus) (event_type : String) (handler : Handler) : EventBus :=
  { bus with handlers := addHandler bus.handlers event_type handler }

/-- add_middleware (event_bus.py lines 39-41): appends to the pipeline. -/
def add_middleware (bus : EventBus) (m : Middleware) : EventBus :=
  { bus with middleware := bus.middleware ++ [m] }

/-- apply_middleware (event_bus.py lines 96-109): runs one stage; if the
stage raises, the failure is logged and the incoming event is returned
unchanged. -/
def apply_middleware (middleware : Middleware) (event : DomainEvent) : DomainEvent :=
  match middleware event with
  | .ok e => e
  | .error _ => event

/-- Lines 51-53 of publish: the middleware chain, applied in registration
order, each stage fed the output of the previous one. -/
def processedEvent (bus : EventBus) (event : DomainEvent) : DomainEvent :=
  bus.middleware.foldl (fun e m => apply_middleware m e) event

/-- Registry lookup: `self._handlers.get(type(processed_event), [])`
(line 56); the runtime class used as the key is identified by its name,
which equals the event_type tag. -/
def lookupHandlers : List (String × List Handler) → String → List Handler
  | [], _ => []
  | p :: rest, k => if p.1 = k then p.2 else lookupHandlers rest k

/-- The handlers matched for one publish call. -/
def matchedHandlers (bus : EventBus) (event : DomainEvent) : List Handler :=
  lookupHandlers bus.handlers (processedEvent bus event).event_type

/-- execute_handler (event_bus.py lines 111-125): runs one handler; a
failure is logged and re-raised, to be captured by gather. -/
def execute_handler (handler : Handler) (event : DomainEvent) : Except String Unit :=
  handler event

/-- One structured failure record written by lines 72-79 of publish; the
handler is identified by its position in the matched list (the source uses
its name). -/
structure LogEntry where
  handler_index : Nat
  error : String
  event_type : String
deriving DecidableEq

/-- Lines 72-79 of publish: one failure record per captured handler
exception, walked in submission order with its index. -/
def handlerFailureLogs (event_type : String) : Nat → List (Except String Unit) → List LogEntry
  | _, [] => []
  | i, .error msg :: rest =>
      { handler_index := i, error := msg, event_type := event_type }
        :: handlerFailureLogs event_type (i + 1) rest
  | i, .ok _ :: rest => handlerFailureLogs event_type (i + 1) rest

/-- The body of the try block of publish (event_bus.py lines 49-86): run the
middleware chain, look the handlers up, run every handler with the processed
event capturing each failure as a value (gather with return_exceptions=True),
then log the captured failures. Every exception arising inside the body is
already handled where it arises — middleware failures by apply_middleware,
handler failures by the gather capture — so the body itself never raises;
the Except wrapper records where an exception escaping the orchestration
would propagate to. -/
def publish_body (bus : EventBus) (event : DomainEvent) :
    Except String (List (Except String Unit) × List LogEntry) :=
  let processed := processedEvent bus event
  let handlers := lookupHandlers bus.handlers processed.event_type
  let results := handlers.map (fun h => execute_handler h processed)
  .ok (results, handlerFailureLogs processed.event_type 0 results)

/-- The except clause of publish (event_bus.py lines 88-94): log the
orchestration failure and append the original, pre-middleware event to the
dead letter queue. -/
def publish_on_error (bus : EventBus) (event : DomainEvent) : EventBus :=
  { bus with dead_letter_queue := bus.dead_letter_queue ++ [event] }

/-- publish (event_bus.py lines 43-94): the try body, with the except clause
routing an escaped orchestration exception to the dead letter queue. Returns
the bus state together with the per-handler results and the failure log
records. -/
def publish (bus : EventBus) (event : DomainEvent) :
    EventBus × List (Except String Unit) × List LogEntry :=
  match publish_body bus event with
  | .ok (results, logs) => (bus, results, logs)
  | .error _ => (publish_on_error bus event, [], [])

theorem mem_handlerFailureLogs (et : String) (results : List (Except String Unit))
    (j i0 : Nat) (msg : String) (hj : results[j]? = some (.error msg)) :
    ({ handler_index := i0 + j, error := msg, event_type := et } : LogEntry)
      ∈ handlerFailureLogs et i0 results := by
  induction results generalizing j i0 with
  | nil => simp at hj
  | cons r rest ih =>
    cases j with
    | zero =>
      simp at hj
      subst hj
      simp [handlerFailureLogs]
    | succ j =>
      simp at hj
      have := ih j (i0 + 1) hj
      have harith : i0 + 1 + j = i0 + (j + 1) := by omega
      rw [harith] at this
      cases r with
      | error m => exact List.mem_cons_of_mem _ this
      | ok u => exact this

end EventBus

open EventBus in
/-- C2: for every bus and event, publish runs every matched handler exactly
once on the processed event — the result at position i is exactly handler i
applied, so a failing handler never prevents any sibling from being invoked
and completing; every captured handler failure is logged; and publish
itself returns normally (the try body never raises). -/
theorem publish_isolates_handler_failures (bus : EventBus) (event : DomainEvent) :
    (publish bus event).2.1.length = (matchedHandlers bus event).length ∧
    (∀ i : Nat, (publish bus event).2.1[i]? =
      ((matchedHandlers bus event)[i]?).map
        (fun h => execute_handler h (processedEvent bus event))) ∧
    (∀ (i : Nat) (h : Handler) (msg : String),
      (matchedHandlers bus event)[i]? = some h →
      execute_handler h (processedEvent bus event) = .error msg →
      ({ handler_index := i, error := msg,
         event_type := (processedEvent bus event).event_type } : LogEntry)
        ∈ (publish bus event).2.2) ∧
    (∃ r, publish_body bus event = .ok r) := by
  refine ⟨?_, ?_, ?_, ?_⟩
  · simp [publish, publish_body, matchedHandlers]
  · intro i
    simp [publish, publish_body, matchedHandlers]
  · intro i h msg hi hfail
    have hres : ((matchedHandlers bus event).map
        (fun h => execute_handler h (processedEvent bus event)))[i]? = some (.error msg) := by
      simp [List.getElem?_map, hi, hfail]
    have := mem_handlerFailureLogs (processedEvent bus event).event_type
      ((matchedHandlers bus event).map
        (fun h => execute_handler h (processedEvent bus event))) i 0 msg hres
    simpa [publish, publish_body, matchedHandlers] using this
  · exact ⟨_, rfl⟩

/-- A handler that always succeeds. -/
def okHandler : Handler := fun _ => .ok ()

/-- A handler that always raises. -/
def failHandler : Handler := fun _ => .error "boom"

/-- A bus with three handlers for the sample event type, the middle one
always failing, no middleware, and an empty dead letter queue. -/
def demoBus : EventBus :=
  { handlers := [("SimpleEvent", [okHandler, failHandler, okHandler])],
    middleware := [], dead_letter_queue := [] }

open EventBus in
/-- Witness for C2 at a concrete bus: with handlers [ok, fail, ok], the two
healthy handlers both complete, the failure of the middle one is logged, and
publish returns normally. -/
theorem publish_isolates_handler_failures_witness :
    (publish demoBus sampleEvent).2.1[0]? = some (.ok ()) ∧
    (publish demoBus sampleEvent).2.1[2]? = some (.ok ()) ∧
    ({ handler_index := 1, error := "boom", event_type := "SimpleEvent" } : LogEntry)
      ∈ (publish demoBus sampleEvent).2.2 := by
  have h := publish_isolates_handler_failures demoBus sampleEvent
  refine ⟨?_, ?_, ?_⟩
  · rw [h.2.1 0]; rfl
  · rw [h.2.1 2]; rfl
  · exact h.2.2.1 1 failHandler "boom" rfl rfl

open EventBus in
/-- C3: for every bus and event — in particular when individual handlers or
middleware stages fail — publish leaves the dead letter queue unchanged,
because the try body never raises; and the except path, the only writer of
the dead letter queue, appends exactly the original, pre-middleware event. -/
theorem dead_letter_only_on_orchestration_failure (bus : EventBus) (event : DomainEvent) :
    (publish bus event).1.dead_letter_queue = bus.dead_letter_queue ∧
    (∃ r, publish_body bus event = .ok r) ∧
    (∀ (b : EventBus) (e : DomainEvent),
      (publish_on_error b e).dead_letter_queue = b.dead_letter_queue ++ [e]) := by
  refine ⟨rfl, ⟨_, rfl⟩, fun b e => rfl⟩

open EventBus in
/-- C4: the middleware chain is applied in registration order with each
stage fed the previous stage output (for [A, B], the input of B is the
output of A); a stage that raises is a passthrough, forwarding its input
unchanged; and the publish operation is not aborted — every matched handler
is still invoked. -/
theorem middleware_ordered_with_failure_passthrough :
    (∀ (A B : Middleware) (e : DomainEvent),
      processedEvent { handlers := [], middleware := [A, B], dead_letter_queue := [] } e
        = apply_middleware B (apply_middleware A e)) ∧
    (∀ (m : Middleware) (ms : List Middleware) (hs : List (String × List Handler))
        (dlq : List DomainEvent) (e : DomainEvent),
      processedEvent { handlers := hs, middleware := m :: ms, dead_letter_queue := dlq } e
        = processedEvent { handlers := hs, middleware := ms, dead_letter_queue := dlq }
            (apply_middleware m e)) ∧
    (∀ (m : Middleware) (e : DomainEvent) (msg : String),
      m e = .error msg → apply_middleware m e = e) ∧
    (∀ (bus : EventBus) (event : DomainEvent),
      (publish bus event).2.1.length = (matchedHandlers bus event).length) := by
  refine ⟨fun A B e => rfl, fun m ms hs dlq e => rfl, ?_, ?_⟩
  · intro m e msg hm
    simp [EventBus.apply_middleware, hm]
  · intro bus event
    simp [EventBus.publish, EventBus.publish_body, EventBus.matchedHandlers]

/-- A middleware stage that always raises. -/
def failingMiddleware : Middleware := fun _ => .error "mw down"

open EventBus in
/-- Witness for C4 at a concrete input: a stage that always raises forwards
the sample event unchanged. -/
theorem middleware_ordered_with_failure_passthrough_witness :
    apply_middleware failingMiddleware sampleEvent = sampleEvent := by
  exact middleware_ordered_with_failure_passthrough.2.2.1
    failingMiddleware sampleEvent "mw down" rfl

/-! ## Shipped middleware (app/events/middleware.py) -/

/-- logging_middleware (middleware.py lines 12-25): observes and forwards
the event unchanged. -/
def logging_middleware : Middleware := fun e => .ok e

/-- audit_middleware (middleware.py lines 54-68): observes and forwards the
event unchanged. -/
def audit_middleware : Middleware := fun e => .ok e

/-- base.py line 22: the metadata field of DomainEvent is declared with
init=False. -/
def domainEventMetadataInitFlag : Bool := false

/-- dataclasses.replace applied as replace(event, metadata=enhanced)
(middleware.py lines 40-42). CPython replace raises for any changed field
declared with init=False; DomainEvent.metadata is such a field, so this
call raises unconditionally and never produces the replaced event. -/
def dataclassesReplaceMetadata (e : DomainEvent) (m : Metadata) : Except String DomainEvent :=
  if domainEventMetadataInitFlag then
    .ok { e with metadata := m }
  else
    .error "field metadata is declared with init=False, it cannot be specified with replace()"

/-- Lines 33-37 of metrics_middleware: the merged metadata the stage intends
to stamp — the incoming bag, plus processing_started_at set to the current
time, plus the middleware_applied audit entry. -/
def enhancedMetadata (m : Metadata) (now : ℚ) : Metadata :=
  metaInsert (metaInsert m "processing_started_at" (.num now))
    "middleware_applied" (.strList ["logging", "metrics"])

/-- metrics_middleware (middleware.py lines 28-51): computes the merged
metadata, then calls dataclasses.replace to build the enhanced event; the
current time is an environment input. -/
def metrics_middleware (now : ℚ) : Middleware := fun e =>
  dataclassesReplaceMetadata e (enhancedMetadata e.metadata now)

/-- C5 (code bug): metrics_middleware computes the intended merged metadata
(last conjunct) but the dataclasses.replace call it hands the merge to
raises, because DomainEvent.metadata is declared init=False; under the bus
the stage is therefore a passthrough and the event reaching the next stage
still lacks the processing_started_at key, where the claim demands the
stamped event. -/
theorem metrics_middleware_never_stamps_metadata :
    metrics_middleware 1000 sampleEvent =
      .error "field metadata is declared with init=False, it cannot be specified with replace()" ∧
    EventBus.apply_middleware (metrics_middleware 1000) sampleEvent = sampleEvent ∧
    metaLookup (EventBus.apply_middleware (metrics_middleware 1000) sampleEvent).metadata
      "processing_started_at" = none ∧
    metaLookup (enhancedMetadata sampleEvent.metadata 1000) "processing_started_at"
      = some (.num 1000) ∧
    metaLookup (enhancedMetadata sampleEvent.metadata 1000) "middleware_applied"
      = some (.strList ["logging", "metrics"]) := by
  refine ⟨rfl, rfl, rfl, ?_, ?_⟩ <;>
    simp [enhancedMetadata, metaInsert, metaLookup, sampleEvent]

/-! ## Concrete events (app/events/log_events.py, ml_events.py,
incident_events.py)

Every concrete event is a frozen dataclass extending DomainEvent: its
constructor takes aggregate_id (the only required base init field) followed
by the declared business fields, and its post-construction step validates
the business invariants, overrides aggregate_id per the derivation rule of
that type, and then runs the base step, which sets event_type to the class
name and resets metadata to the empty bag. The generated envelope inputs —
uuid4() for event_id, the current UTC time for occurred_at, and the uuid4()
fallback some derivations use — are environment supplied and passed
explicitly through `Gen`. A constructor that validates returns
`Except String`; one with no checks is total. -/

/-- Generated envelope inputs for one construction. -/
structure Gen where
  event_id : UUID
  now : ℚ
  fresh_uuid : UUID

/-- LogLevel (app/domain/entities.py lines 10-17). -/
inductive LogLevel where
  | debug | info | warning | error | critical
deriving DecidableEq

/-- IncidentSeverity (app/domain/entities.py lines 41-47). -/
inductive IncidentSeverity where
  | low | medium | high | critical
deriving DecidableEq

/-- AnomalyScore (app/domain/value_objects.py lines 9-15), restricted to
the numeric fields; events receive it already constructed. -/
structure AnomalyScore where
  value : ℚ
  confidence : ℚ
  threshold : ℚ
deriving DecidableEq

/-- LogEntryCreated (log_events.py lines 12-25). -/
structure LogEntryCreated where
  aggregate_id : UUID
  event_id : UUID
  occurred_at : ℚ
  version : Int
  event_type : String
  metadata : Metadata
  log_id : UUID
  message : String
  level : LogLevel
  source : String
  tags : List String
deriving DecidableEq

/-- Construction of LogEntryCreated: no validation; aggregate_id is
overridden with log_id. -/
def LogEntryCreated.make (g : Gen) (aggregate_id log_id : UUID) (message : String)
    (level : LogLevel) (source : String) (tags : List String) : LogEntryCreated :=
  { aggregate_id := log_id, event_id := g.event_id, occurred_at := g.now,
    version := 1, event_type := "LogEntryCreated", metadata := [],
    log_id := log_id, message := message, level := level, source := source,
    tags := tags }

/-- LogClassificationCompleted (log_events.py lines 28-46). -/
structure LogClassificationCompleted where
  aggregate_id : UUID
  event_id : UUID
  occurred_at : ℚ
  version : Int
  event_type : String
  metadata : Metadata
  log_id : UUID
  predicted_level : LogLevel
  confidence : ℚ
  model_version : String
  processing_time_ms : Int
deriving DecidableEq

/-- Construction of LogClassificationCompleted: validates the confidence
range and the processing time sign, then overrides aggregate_id with
log_id. -/
def LogClassificationCompleted.make (g : Gen) (aggregate_id log_id : UUID)
    (predicted_level : LogLevel) (confidence : ℚ) (model_version : String)
    (processing_time_ms : Int) : Except String LogClassificationCompleted :=
  if ¬ (0 ≤ confidence ∧ confidence ≤ 1) then
    .error "Confidence must be between 0.0 and 1.0"
  else if processing_time_ms < 0 then
    .error "Processing time cannot be negative"
  else
    .ok { aggregate_id := log_id, event_id := g.event_id, occurred_at := g.now,
          version := 1, event_type := "LogClassificationCompleted", metadata := [],
          log_id := log_id, predicted_level := predicted_level,
          confidence := confidence, model_version := model_version,
          processing_time_ms := processing_time_ms }

/-- AnomalyDetected (log_events.py lines 49-71). -/
structure AnomalyDetected where
  aggregate_id : UUID
  event_id : UUID
  occurred_at : ℚ
  version : Int
  event_type : String
  metadata : Metadata
  source : String
  anomaly_score : AnomalyScore
  detection_method : String
  severity : String
  affected_logs : List UUID
  aggregate_root_id : Option UUID
deriving DecidableEq

/-- Construction of AnomalyDetected: no validation; aggregate_id is the
explicit aggregate_root_id when given, else the first affected log, else a
fresh uuid4. -/
def AnomalyDetected.make (g : Gen) (aggregate_id : UUID) (source : String)
    (anomaly_score : AnomalyScore) (detection_method : String) (severity : String)
    (affected_logs : List UUID) (aggregate_root_id : Option UUID) : AnomalyDetected :=
  let derived : UUID :=
    match aggregate_root_id with
    | some a => a
    | none =>
      match affected_logs with
      | x :: _ => x
      | [] => g.fresh_uuid
  { aggregate_id := derived, event_id := g.event_id, occurred_at := g.now,
    version := 1, event_type := "AnomalyDetected", metadata := [],
    source := source, anomaly_score := anomaly_score,
    detection_method := detection_method, severity := severity,
    affected_logs := affected_logs, aggregate_root_id := aggregate_root_id }

/-- LogPatternIdentified (log_events.py lines 74-100). -/
structure LogPatternIdentified where
  aggregate_id : UUID
  event_id : UUID
  occurred_at : ℚ
  version : Int
  event_type : String
  metadata : Metadata
  pattern_id : String
  pattern_description : String
  frequency_per_hour : Int
  detection_method : String
  affected_sources : List String
  sample_log_ids : List UUID
  aggregate_root_id : Option UUID
deriving DecidableEq

/-- Construction of LogPatternIdentified: validates the frequency sign,
then derives aggregate_id from the explicit root, else the first sample log
id, else a fresh uuid4. -/
def LogPatternIdentified.make (g : Gen) (aggregate_id : UUID) (pattern_id : String)
    (pattern_description : String) (frequency_per_hour : Int) (detection_method : String)
    (affected_sources : List String) (sample_log_ids : List UUID)
    (aggregate_root_id : Option UUID) : Except String LogPatternIdentified :=
  if frequency_per_hour < 0 then
    .error "Frequency cannot be negative"
  else
    let derived : UUID :=
      match aggregate_root_id with
      | some a => a
      | none =>
        match sample_log_ids with
        | x :: _ => x
        | [] => g.fresh_uuid
    .ok { aggregate_id := derived, event_id := g.event_id, occurred_at := g.now,
          version := 1, event_type := "LogPatternIdentified", metadata := [],
          pattern_id := pattern_id, pattern_description := pattern_description,
          frequency_per_hour := frequency_per_hour,
          detection_method := detection_method,
          affected_sources := affected_sources, sample_log_ids := sample_log_ids,
          aggregate_root_id := aggregate_root_id }

/-- ModelTrainingStarted (ml_events.py lines 10-26). -/
structure ModelTrainingStarted where
  aggregate_id : UUID
  event_id : UUID
  occurred_at : ℚ
  version : Int
  event_type : String
  metadata : Metadata
  model_id : UUID
  model_name : String
  model_type : String
  training_data_size : Int
  hyperparameters : Metadata
  training_config : Metadata
deriving DecidableEq

/-- Construction of ModelTrainingStarted: validates the data size sign,
then overrides aggregate_id with model_id. -/
def ModelTrainingStarted.make (g : Gen) (aggregate_id model_id : UUID)
    (model_name model_type : String) (training_data_size : Int)
    (hyperparameters training_config : Metadata) : Except String ModelTrainingStarted :=
  if training_data_size < 0 then
    .error "Training data size cannot be negative"
  else
    .ok { aggregate_id := model_id, event_id := g.event_id, occurred_at := g.now,
          version := 1, event_type := "ModelTrainingStarted", metadata := [],
          model_id := model_id, model_name := model_name, model_type := model_type,
          training_data_size := training_data_size,
          hyperparameters := hyperparameters, training_config := training_config }

/-- ModelTrainingCompleted (ml_events.py lines 29-46). -/
structure ModelTrainingCompleted where
  aggregate_id : UUID
  event_id : UUID
  occurred_at : ℚ
  version : Int
  event_type : String
  metadata : Metadata
  model_id : UUID
  model_name : String
  accuracy : ℚ
  training_duration_minutes : Int
  model_metrics : Metadata
deriving DecidableEq

/-- Construction of ModelTrainingCompleted: validates the accuracy range
and the duration sign, then overrides aggregate_id with model_id. -/
def ModelTrainingCompleted.make (g : Gen) (aggregate_id model_id : UUID)
    (model_name : String) (accuracy : ℚ) (training_duration_minutes : Int)
    (model_metrics : Metadata) : Except String ModelTrainingCompleted :=
  if ¬ (0 ≤ accuracy ∧ accuracy ≤ 1) then
    .error "Accuracy must be between 0 and 1"
  else if training_duration_minutes < 0 then
    .error "Training duration cannot be negative"
  else
    .ok { aggregate_id := model_id, event_id := g.event_id, occurred_at := g.now,
          version := 1, event_type := "ModelTrainingCompleted", metadata := [],
          model_id := model_id, model_name := model_name, accuracy := accuracy,
          training_duration_minutes := training_duration_minutes,
          model_metrics := model_metrics }

/-- ModelDeployed (ml_events.py lines 49-62). The dataclass redeclares the
version field of the envelope as a string with no default (`version: str =
field()`), so for this event version is a required constructor argument
holding the deployment version string — the base integer default 1 is
shadowed. -/
structure ModelDeployed where
  aggregate_id : UUID
  event_id : UUID
  occurred_at : ℚ
  version : String
  event_type : String
  metadata : Metadata
  model_id : UUID
  model_name : String
  deployment_environment : String
  previous_version : Option String
deriving DecidableEq

/-- Construction of ModelDeployed: no validation; aggregate_id is
overridden with model_id; the version string must be supplied. -/
def ModelDeployed.make (g : Gen) (aggregate_id model_id : UUID) (model_name : String)
    (version : String) (deployment_environment : String)
    (previous_version : Option String) : ModelDeployed :=
  { aggregate_id := model_id, event_id := g.event_id, occurred_at := g.now,
    version := version, event_type := "ModelDeployed", metadata := [],
    model_id := model_id, model_name := model_name,
    deployment_environment := deployment_environment,
    previous_version := previous_version }

/-- ModelPerformanceDegraded (ml_events.py lines 65-82). -/
structure ModelPerformanceDegraded where
  aggregate_id : UUID
  event_id : UUID
  occurred_at : ℚ
  version : Int
  event_type : String
  metadata : Metadata
  model_id : UUID
  model_name : String
  current_accuracy : ℚ
  threshold_accuracy : ℚ
  degradation_metrics : Metadata
deriving DecidableEq

/-- Construction of ModelPerformanceDegraded: validates both accuracy
ranges, then overrides aggregate_id with model_id. -/
def ModelPerformanceDegraded.make (g : Gen) (aggregate_id model_id : UUID)
    (model_name : String) (current_accuracy threshold_accuracy : ℚ)
    (degradation_metrics : Metadata) : Except String ModelPerformanceDegraded :=
  if ¬ (0 ≤ current_accuracy ∧ current_accuracy ≤ 1) then
    .error "Current accuracy must be between 0 and 1"
  else if ¬ (0 ≤ threshold_accuracy ∧ threshold_accuracy ≤ 1) then
    .error "Threshold accuracy must be between 0 and 1"
  else
    .ok { aggregate_id := model_id, event_id := g.event_id, occurred_at := g.now,
          version := 1, event_type := "ModelPerformanceDegraded", metadata := [],
          model_id := model_id, model_name := model_name,
          current_accuracy := current_accuracy,
          threshold_accuracy := threshold_accuracy,
          degradation_metrics := degradation_metrics }

/-- IncidentCreated (incident_events.py lines 10-24). -/
structure IncidentCreated where
  aggregate_id : UUID
  event_id : UUID
  occurred_at : ℚ
  version : Int
  event_type : String
  metadata : Metadata
  incident_id : UUID
  title : String
  description : String
  severity : IncidentSeverity
  source : String
  auto_created : Bool
deriving DecidableEq

/-- Construction of IncidentCreated: no validation; aggregate_id is
overridden with incident_id. -/
def IncidentCreated.make (g : Gen) (aggregate_id incident_id : UUID)
    (title description : String) (severity : IncidentSeverity) (source : String)
    (auto_created : Bool) : IncidentCreated :=
  { aggregate_id := incident_id, event_id := g.event_id, occurred_at := g.now,
    version := 1, event_type := "IncidentCreated", metadata := [],
    incident_id := incident_id, title := title, description := description,
    severity := severity, source := source, auto_created := auto_created }

/-- IncidentResolved (incident_events.py lines 27-39). -/
structure IncidentResolved where
  aggregate_id : UUID
  event_id : UUID
  occurred_at : ℚ
  version : Int
  event_type : String
  metadata : Metadata
  incident_id : UUID
  resolved_by : String
  resolution_time_minutes : Int
  resolution_notes : String
deriving DecidableEq

/-- Construction of IncidentResolved: no validation; aggregate_id is
overridden with incident_id. -/
def IncidentResolved.make (g : Gen) (aggregate_id incident_id : UUID)
    (resolved_by : String) (resolution_time_minutes : Int)
    (resolution_notes : String) : IncidentResolved :=
  { aggregate_id := incident_id, event_id := g.event_id, occurred_at := g.now,
    version := 1, event_type := "IncidentResolved", metadata := [],
    incident_id := incident_id, resolved_by := resolved_by,
    resolution_time_minutes := resolution_time_minutes,
    resolution_notes := resolution_notes }

/-- IncidentEscalated (incident_events.py lines 42-55). -/
structure IncidentEscalated where
  aggregate_id : UUID
  event_id : UUID
  occurred_at : ℚ
  version : Int
  event_type : String
  metadata : Metadata
  incident_id : UUID
  escalated_to : String
  escalation_reason : String
  previous_severity : IncidentSeverity
  new_severity : IncidentSeverity
deriving DecidableEq

/-- Construction of IncidentEscalated: no validation; aggregate_id is
overridden with incident_id. -/
def IncidentEscalated.make (g : Gen) (aggregate_id incident_id : UUID)
    (escalated_to escalation_reason : String)
    (previous_severity new_severity : IncidentSeverity) : IncidentEscalated :=
  { aggregate_id := incident_id, event_id := g.event_id, occurred_at := g.now,
    version := 1, event_type := "IncidentEscalated", metadata := [],
    incident_id := incident_id, escalated_to := escalated_to,
    escalation_reason := escalation_reason,
    previous_severity := previous_severity, new_severity := new_severity }

/-- IncidentSlaBreached (incident_events.py lines 58-71). -/
structure IncidentSlaBreached where
  aggregate_id : UUID
  event_id : UUID
  occurred_at : ℚ
  version : Int
  event_type : String
  metadata : Metadata
  incident_id : UUID
  sla_type : String
  target_minutes : Int
  actual_minutes : Int
  breach_severity : String
deriving DecidableEq

/-- Construction of IncidentSlaBreached: no validation; aggregate_id is
overridden with incident_id. -/
def IncidentSlaBreached.make (g : Gen) (aggregate_id incident_id : UUID)
    (sla_type : String) (target_minutes actual_minutes : Int)
    (breach_severity : String) : IncidentSlaBreached :=
  { aggregate_id := incident_id, event_id := g.event_id, occurred_at := g.now,
    version := 1, event_type := "IncidentSlaBreached", metadata := [],
    incident_id := incident_id, sla_type := sla_type,
    target_minutes := target_minutes, actual_minutes := actual_minutes,
    breach_severity := breach_severity }

/-- A fixed choice of generated envelope inputs for concrete test vectors. -/
def g0 : Gen := { event_id := 11, now := 500, fresh_uuid := 99 }

/-- C7: for each concrete event carrying a confidence or accuracy field —
ModelTrainingCompleted, LogClassificationCompleted, ModelPerformanceDegraded —
construction with the field outside [0, 1] raises the range error and
produces no value; construction succeeds exactly when every field invariant
of the type holds; and on success the stored field equals the input. -/
theorem construction_validates_confidence_fields (g : Gen) :
    (∀ (a mid : UUID) (name : String) (acc : ℚ) (dur : Int) (mm : Metadata),
      (¬ (0 ≤ acc ∧ acc ≤ 1) →
        ModelTrainingCompleted.make g a mid name acc dur mm
          = .error "Accuracy must be between 0 and 1") ∧
      ((∃ ev, ModelTrainingCompleted.make g a mid name acc dur mm = .ok ev) ↔
        (0 ≤ acc ∧ acc ≤ 1 ∧ 0 ≤ dur)) ∧
      (∀ ev, ModelTrainingCompleted.make g a mid name acc dur mm = .ok ev →
        ev.accuracy = acc)) ∧
    (∀ (a lid : UUID) (lvl : LogLevel) (conf : ℚ) (mv : String) (pt : Int),
      (¬ (0 ≤ conf ∧ conf ≤ 1) →
        LogClassificationCompleted.make g a lid lvl conf mv pt
          = .error "Confidence must be between 0.0 and 1.0") ∧
      ((∃ ev, LogClassificationCompleted.make g a lid lvl conf mv pt = .ok ev) ↔
        (0 ≤ conf ∧ conf ≤ 1 ∧ 0 ≤ pt)) ∧
      (∀ ev, LogClassificationCompleted.make g a lid lvl conf mv pt = .ok ev →
        ev.confidence = conf)) ∧
    (∀ (a mid : UUID) (name : String) (ca ta : ℚ) (dm : Metadata),
      (¬ (0 ≤ ca ∧ ca ≤ 1) →
        ModelPerformanceDegraded.make g a mid name ca ta dm
          = .error "Current accuracy must be between 0 and 1") ∧
      ((∃ ev, ModelPerformanceDegraded.make g a mid name ca ta dm = .ok ev) ↔
        ((0 ≤ ca ∧ ca ≤ 1) ∧ (0 ≤ ta ∧ ta ≤ 1))) ∧
      (∀ ev, ModelPerformanceDegraded.make g a mid name ca ta dm = .ok ev →
        ev.current_accuracy = ca ∧ ev.threshold_accuracy = ta)) := by
  refine ⟨?_, ?_, ?_⟩
  · intro a mid name acc dur mm
    refine ⟨?_, ⟨?_, ?_⟩, ?_⟩
    · intro h
      simp [ModelTrainingCompleted.make, h]
    · rintro ⟨ev, hev⟩
      simp only [ModelTrainingCompleted.make] at hev
      split at hev
      · exact Except.noConfusion hev
      · split at hev
        · exact Except.noConfusion hev
        · rename_i h1 h2
          have hc := not_not.mp h1
          exact ⟨hc.1, hc.2, by omega⟩
    · rintro ⟨h0, h1, hd⟩
      refine ⟨{ aggregate_id := mid, event_id := g.event_id, occurred_at := g.now,
                version := 1, event_type := "ModelTrainingCompleted", metadata := [],
                model_id := mid, model_name := name, accuracy := acc,
                training_duration_minutes := dur, model_metrics := mm }, ?_⟩
      simp only [ModelTrainingCompleted.make]
      rw [if_neg (not_not_intro ⟨h0, h1⟩), if_neg (by omega)]
    · intro ev hev
      simp only [ModelTrainingCompleted.make] at hev
      split at hev
      · exact Except.noConfusion hev
      · split at hev
        · exact Except.noConfusion hev
        · injection hev with h
          subst h
          rfl
  · intro a lid lvl conf mv pt
    refine ⟨?_, ⟨?_, ?_⟩, ?_⟩
    · intro h
      simp [LogClassificationCompleted.make, h]
    · rintro ⟨ev, hev⟩
      simp only [LogClassificationCompleted.make] at hev
      split at hev
      · exact Except.noConfusion hev
      · split at hev
        · exact Except.noConfusion hev
        · rename_i h1 h2
          have hc := not_not.mp h1
          exact ⟨hc.1, hc.2, by omega⟩
    · rintro ⟨h0, h1, hp⟩
      refine ⟨{ aggregate_id := lid, event_id := g.event_id, occurred_at := g.now,
                version := 1, event_type := "LogClassificationCompleted", metadata := [],
                log_id := lid, predicted_level := lvl, confidence := conf,
                model_version := mv, processing_time_ms := pt }, ?_⟩
      simp only [LogClassificationCompleted.make]
      rw [if_neg (not_not_intro ⟨h0, h1⟩), if_neg (by omega)]
    · intro ev hev
      simp only [LogClassificationCompleted.make] at hev
      split at hev
      · exact Except.noConfusion hev
      · split at hev
        · exact Except.noConfusion hev
        · injection hev with h
          subst h
          rfl
  · intro a mid name ca ta dm
    refine ⟨?_, ⟨?_, ?_⟩, ?_⟩
    · intro h
      simp [ModelPerformanceDegraded.make, h]
    · rintro ⟨ev, hev⟩
      simp only [ModelPerformanceDegraded.make] at hev
      split at hev
      · exact Except.noConfusion hev
      · split at hev
        · exact Except.noConfusion hev
        · rename_i h1 h2
          exact ⟨not_not.mp h1, not_not.mp h2⟩
    · rintro ⟨hca, hta⟩
      refine ⟨{ aggregate_id := mid, event_id := g.event_id, occurred_at := g.now,
                version := 1, event_type := "ModelPerformanceDegraded", metadata := [],
                model_id := mid, model_name := name, current_accuracy := ca,
                threshold_accuracy := ta, degradation_metrics := dm }, ?_⟩
      simp only [ModelPerformanceDegraded.make]
      rw [if_neg (not_not_intro hca), if_neg (not_not_intro hta)]
    · intro ev hev
      simp only [ModelPerformanceDegraded.make] at hev
      split at hev
      · exact Except.noConfusion hev
      · split at hev
        · exact Except.noConfusion hev
        · injection hev with h
          subst h
          exact ⟨rfl, rfl⟩

/-- The value ModelTrainingCompleted.make g0 1 1 "m" (19/20) 120 []
produces. -/
def mtcSample : ModelTrainingCompleted :=
  { aggregate_id := 1, event_id := 11, occurred_at := 500, version := 1,
    event_type := "ModelTrainingCompleted", metadata := [], model_id := 1,
    model_name := "m", accuracy := 19/20, training_duration_minutes := 120,
    model_metrics := [] }

/-- The value LogClassificationCompleted.make g0 2 2 LogLevel.error (1/2)
"v1" 10 produces. -/
def lccSample : LogClassificationCompleted :=
  { aggregate_id := 2, event_id := 11, occurred_at := 500, version := 1,
    event_type := "LogClassificationCompleted", metadata := [], log_id := 2,
    predicted_level := LogLevel.error, confidence := 1/2, model_version := "v1",
    processing_time_ms := 10 }

/-- The value ModelPerformanceDegraded.make g0 3 3 "m" (3/4) (9/10) []
produces. -/
def mpdSample : ModelPerformanceDegraded :=
  { aggregate_id := 3, event_id := 11, occurred_at := 500, version := 1,
    event_type := "ModelPerformanceDegraded", metadata := [], model_id := 3,
    model_name := "m", current_accuracy := 3/4, threshold_accuracy := 9/10,
    degradation_metrics := [] }

/-- Witness for C7 at concrete inputs: out-of-range values are rejected
with the range error, in-range values are accepted, and the stored fields
equal the inputs. -/
theorem construction_validates_confidence_fields_witness :
    ModelTrainingCompleted.make g0 1 1 "m" (3/2) 120 []
      = .error "Accuracy must be between 0 and 1" ∧
    (∃ ev, ModelTrainingCompleted.make g0 1 1 "m" (19/20) 120 [] = .ok ev) ∧
    mtcSample.accuracy = 19/20 ∧
    LogClassificationCompleted.make g0 2 2 LogLevel.error (5/4) "v1" 10
      = .error "Confidence must be between 0.0 and 1.0" ∧
    (∃ ev, LogClassificationCompleted.make g0 2 2 LogLevel.error (1/2) "v1" 10 = .ok ev) ∧
    lccSample.confidence = 1/2 ∧
    ModelPerformanceDegraded.make g0 3 3 "m" (-1/2) (9/10) []
      = .error "Current accuracy must be between 0 and 1" ∧
    (∃ ev, ModelPerformanceDegraded.make g0 3 3 "m" (3/4) (9/10) [] = .ok ev) ∧
    mpdSample.current_accuracy = 3/4 ∧ mpdSample.threshold_accuracy = 9/10 := by
  have h := construction_validates_confidence_fields g0
  refine ⟨?_, ?_, ?_, ?_, ?_, ?_, ?_, ?_, ?_⟩
  · exact (h.1 1 1 "m" (3/2) 120 []).1 (by norm_num)
  · exact (h.1 1 1 "m" (19/20) 120 []).2.1.mpr (by norm_num)
  · exact (h.1 1 1 "m" (19/20) 120 []).2.2 mtcSample
      (by simp only [ModelTrainingCompleted.make]; norm_num [mtcSample, g0])
  · exact (h.2.1 2 2 LogLevel.error (5/4) "v1" 10).1 (by norm_num)
  · exact (h.2.1 2 2 LogLevel.error (1/2) "v1" 10).2.1.mpr (by norm_num)
  · exact (h.2.1 2 2 LogLevel.error (1/2) "v1" 10).2.2 lccSample
      (by simp only [LogClassificationCompleted.make]; norm_num [lccSample, g0])
  · exact (h.2.2 3 3 "m" (-1/2) (9/10) []).1 (by norm_num)
  · exact (h.2.2 3 3 "m" (3/4) (9/10) []).2.1.mpr (by norm_num)
  · exact And.intro
      (((h.2.2 3 3 "m" (3/4) (9/10) []).2.2 mpdSample
        (by simp only [ModelPerformanceDegraded.make]; norm_num [mpdSample, g0])).1)
      (((h.2.2 3 3 "m" (3/4) (9/10) []).2.2 mpdSample
        (by simp only [ModelPerformanceDegraded.make]; norm_num [mpdSample, g0])).2)

/-- C8: for the concrete events accepting an optional aggregate-root
override — AnomalyDetected and LogPatternIdentified — the constructed event
has aggregate_id equal to the override when supplied; equal to the first
related entity id when the override is absent and that list is nonempty;
and equal to the freshly generated uuid4 value when both are absent. The
derivation is performed by the constructor and lands in a field of the
immutable result. -/
theorem aggregate_id_override_derivation (g : Gen) :
    (∀ (a : UUID) (src : String) (sc : AnomalyScore) (dm sev : String)
        (logs : List UUID) (root : UUID),
      (AnomalyDetected.make g a src sc dm sev logs (some root)).aggregate_id = root) ∧
    (∀ (a : UUID) (src : String) (sc : AnomalyScore) (dm sev : String)
        (x : UUID) (rest : List UUID),
      (AnomalyDetected.make g a src sc dm sev (x :: rest) none).aggregate_id = x) ∧
    (∀ (a : UUID) (src : String) (sc : AnomalyScore) (dm sev : String),
      (AnomalyDetected.make g a src sc dm sev [] none).aggregate_id = g.fresh_uuid) ∧
    (∀ (a : UUID) (pid desc : String) (freq : Int) (dm : String)
        (srcs : List String) (ids : List UUID) (root : UUID) (ev : LogPatternIdentified),
      LogPatternIdentified.make g a pid desc freq dm srcs ids (some root) = .ok ev →
      ev.aggregate_id = root) ∧
    (∀ (a : UUID) (pid desc : String) (freq : Int) (dm : String)
        (srcs : List String) (x : UUID) (rest : List UUID) (ev : LogPatternIdentified),
      LogPatternIdentified.make g a pid desc freq dm srcs (x :: rest) none = .ok ev →
      ev.aggregate_id = x) ∧
    (∀ (a : UUID) (pid desc : String) (freq : Int) (dm : String)
        (srcs : List String) (ev : LogPatternIdentified),
      LogPatternIdentified.make g a pid desc freq dm srcs [] none = .ok ev →
      ev.aggregate_id = g.fresh_uuid) := by
  refine ⟨fun a src sc dm sev logs root => rfl,
          fun a src sc dm sev x rest => rfl,
          fun a src sc dm sev => rfl, ?_, ?_, ?_⟩
  · intro a pid desc freq dm srcs ids root ev hev
    simp only [LogPatternIdentified.make] at hev
    split at hev
    · exact Except.noConfusion hev
    · injection hev with h
      subst h
      rfl
  · intro a pid desc freq dm srcs x rest ev hev
    simp only [LogPatternIdentified.make] at hev
    split at hev
    · exact Except.noConfusion hev
    · injection hev with h
      subst h
      rfl
  · intro a pid desc freq dm srcs ev hev
    simp only [LogPatternIdentified.make] at hev
    split at hev
    · exact Except.noConfusion hev
    · injection hev with h
      subst h
      rfl

/-- The value LogPatternIdentified.make g0 1 "p" "d" 4 "freq" [] [21]
(some 88) produces. -/
def lpiRootSample : LogPatternIdentified :=
  { aggregate_id := 88, event_id := 11, occurred_at := 500, version := 1,
    event_type := "LogPatternIdentified", metadata := [], pattern_id := "p",
    pattern_description := "d", frequency_per_hour := 4, detection_method := "freq",
    affected_sources := [], sample_log_ids := [21], aggregate_root_id := some 88 }

/-- The value LogPatternIdentified.make g0 1 "p" "d" 4 "freq" [] [21] none
produces. -/
def lpiFirstSample : LogPatternIdentified :=
  { aggregate_id := 21, event_id := 11, occurred_at := 500, version := 1,
    event_type := "LogPatternIdentified", metadata := [], pattern_id := "p",
    pattern_description := "d", frequency_per_hour := 4, detection_method := "freq",
    affected_sources := [], sample_log_ids := [21], aggregate_root_id := none }

/-- The value LogPatternIdentified.make g0 1 "p" "d" 4 "freq" [] [] none
produces. -/
def lpiFreshSample : LogPatternIdentified :=
  { aggregate_id := 99, event_id := 11, occurred_at := 500, version := 1,
    event_type := "LogPatternIdentified", metadata := [], pattern_id := "p",
    pattern_description := "d", frequency_per_hour := 4, detection_method := "freq",
    affected_sources := [], sample_log_ids := [], aggregate_root_id := none }

/-- Witness for C8 at concrete inputs: override 77 or 88 wins; first related
id 5 or 21 is used when the override is absent; the fresh uuid4 value 99 is
used when both are absent. -/
theorem aggregate_id_override_derivation_witness :
    (AnomalyDetected.make g0 1 "svc" ⟨1/2, 1/2, 7/10⟩ "stat" "high" [5, 6]
      (some 77)).aggregate_id = 77 ∧
    (AnomalyDetected.make g0 1 "svc" ⟨1/2, 1/2, 7/10⟩ "stat" "high" [5, 6]
      none).aggregate_id = 5 ∧
    (AnomalyDetected.make g0 1 "svc" ⟨1/2, 1/2, 7/10⟩ "stat" "high" []
      none).aggregate_id = g0.fresh_uuid ∧
    lpiRootSample.aggregate_id = 88 ∧
    lpiFirstSample.aggregate_id = 21 ∧
    lpiFreshSample.aggregate_id = g0.fresh_uuid := by
  have h := aggregate_id_override_derivation g0
  refine ⟨h.1 1 "svc" ⟨1/2, 1/2, 7/10⟩ "stat" "high" [5, 6] 77,
          h.2.1 1 "svc" ⟨1/2, 1/2, 7/10⟩ "stat" "high" 5 [6],
          h.2.2.1 1 "svc" ⟨1/2, 1/2, 7/10⟩ "stat" "high", ?_, ?_, ?_⟩
  · exact h.2.2.2.1 1 "p" "d" 4 "freq" [] [21] 88 lpiRootSample
      (by norm_num [LogPatternIdentified.make, lpiRootSample, g0])
  · exact h.2.2.2.2.1 1 "p" "d" 4 "freq" [] 21 [] lpiFirstSample
      (by norm_num [LogPatternIdentified.make, lpiFirstSample, g0])
  · exact h.2.2.2.2.2 1 "p" "d" 4 "freq" [] lpiFreshSample
      (by norm_num [LogPatternIdentified.make, lpiFreshSample, g0])

/-- C9 counterexample: ModelDeployed — one of the code places the claim
cites — redeclares the envelope version field as a required string
constructor argument (`version: str = field()`, ml_events.py line 55), and
the repository test suite constructs it with version="v1.0.0". The
constructed event therefore carries the supplied deployment string, not an
integer defaulting to 1, refuting the claim for this concrete event. -/
theorem model_deployed_version_counterexample :
    (ModelDeployed.make g0 4 4 "test_model" "v1.0.0" "production" none).version
      = "v1.0.0" ∧ "v1.0.0" ≠ "1" := by
  exact ⟨rfl, by decide⟩

/-- C9 amended: for every concrete event except ModelDeployed the envelope
version field is the integer 1 set by the base default, and construction
offers no way to supply it; ModelDeployed alone shadows the field with a
required deployment-version string. -/
theorem version_defaults_to_one_except_model_deployed (g : Gen) :
    (∀ (a lid : UUID) (msg : String) (lvl : LogLevel) (src : String) (tags : List String),
      (LogEntryCreated.make g a lid msg lvl src tags).version = 1) ∧
    (∀ (a lid : UUID) (lvl : LogLevel) (conf : ℚ) (mv : String) (pt : Int)
        (ev : LogClassificationCompleted),
      LogClassificationCompleted.make g a lid lvl conf mv pt = .ok ev → ev.version = 1) ∧
    (∀ (a : UUID) (src : String) (sc : AnomalyScore) (dm sev : String)
        (logs : List UUID) (root : Option UUID),
      (AnomalyDetected.make g a src sc dm sev logs root).version = 1) ∧
    (∀ (a : UUID) (pid desc : String) (freq : Int) (dm : String)
        (srcs : List String) (ids : List UUID) (root : Option UUID)
        (ev : LogPatternIdentified),
      LogPatternIdentified.make g a pid desc freq dm srcs ids root = .ok ev →
      ev.version = 1) ∧
    (∀ (a mid : UUID) (mn mt : String) (sz : Int) (hp tc : Metadata)
        (ev : ModelTrainingStarted),
      ModelTrainingStarted.make g a mid mn mt sz hp tc = .ok ev → ev.version = 1) ∧
    (∀ (a mid : UUID) (mn : String) (acc : ℚ) (dur : Int) (mm : Metadata)
        (ev : ModelTrainingCompleted),
      ModelTrainingCompleted.make g a mid mn acc dur mm = .ok ev → ev.version = 1) ∧
    (∀ (a mid : UUID) (mn : String) (ca ta : ℚ) (dm : Metadata)
        (ev : ModelPerformanceDegraded),
      ModelPerformanceDegraded.make g a mid mn ca ta dm = .ok ev → ev.version = 1) ∧
    (∀ (a iid : UUID) (t d : String) (sev : IncidentSeverity) (src : String) (ac : Bool),
      (IncidentCreated.make g a iid t d sev src ac).version = 1) ∧
    (∀ (a iid : UUID) (rb : String) (rt : Int) (rn : String),
      (IncidentResolved.make g a iid rb rt rn).version = 1) ∧
    (∀ (a iid : UUID) (eto er : String) (ps ns : IncidentSeverity),
      (IncidentEscalated.make g a iid eto er ps ns).version = 1) ∧
    (∀ (a iid : UUID) (st : String) (tm am : Int) (bs : String),
      (IncidentSlaBreached.make g a iid st tm am bs).version = 1) := by
  refine ⟨fun a lid msg lvl src tags => rfl, ?_,
          fun a src sc dm sev logs root => rfl, ?_, ?_, ?_, ?_,
          fun a iid t d sev src ac => rfl,
          fun a iid rb rt rn => rfl,
          fun a iid eto er ps ns => rfl,
          fun a iid st tm am bs => rfl⟩
  · intro a lid lvl conf mv pt ev hev
    simp only [LogClassificationCompleted.make] at hev
    split at hev
    · exact Except.noConfusion hev
    · split at hev
      · exact Except.noConfusion hev
      · injection hev with h
        subst h
        rfl
  · intro a pid desc freq dm srcs ids root ev hev
    simp only [LogPatternIdentified.make] at hev
    split at hev
    · exact Except.noConfusion hev
    · injection hev with h
      subst h
      rfl
  · intro a mid mn mt sz hp tc ev hev
    simp only [ModelTrainingStarted.make] at hev
    split at hev
    · exact Except.noConfusion hev
    · injection hev with h
      subst h
      rfl
  · intro a mid mn acc dur mm ev hev
    simp only [ModelTrainingCompleted.make] at hev
    split at hev
    · exact Except.noConfusion hev
    · split at hev
      · exact Except.noConfusion hev
      · injection hev with h
        subst h
        rfl
  · intro a mid mn ca ta dm ev hev
    simp only [ModelPerformanceDegraded.make] at hev
    split at hev
    · exact Except.noConfusion hev
    · split at hev
      · exact Except.noConfusion hev
      · injection hev with h
        subst h
        rfl

/-- The value ModelTrainingStarted.make g0 9 5 "m" "rf" 1000 [] []
produces. -/
def mtsSample : ModelTrainingStarted :=
  { aggregate_id := 5, event_id := 11, occurred_at := 500, version := 1,
    event_type := "ModelTrainingStarted", metadata := [], model_id := 5,
    model_name := "m", model_type := "rf", training_data_size := 1000,
    hyperparameters := [], training_config := [] }

/-- Witness for the amended C9 at concrete inputs: every embedded
constructor other than ModelDeployed yields version 1. -/
theorem version_defaults_to_one_witness :
    (LogEntryCreated.make g0 1 1 "boot" LogLevel.info "svc" []).version = 1 ∧
    lccSample.version = 1 ∧
    (AnomalyDetected.make g0 1 "svc" ⟨1/2, 1/2, 7/10⟩ "stat" "high" [] none).version = 1 ∧
    lpiRootSample.version = 1 ∧
    mtsSample.version = 1 ∧
    mtcSample.version = 1 ∧
    mpdSample.version = 1 ∧
    (IncidentCreated.make g0 2 2 "t" "d" IncidentSeverity.high "src" false).version = 1 ∧
    (IncidentResolved.make g0 2 2 "oncall" 30 "").version = 1 ∧
    (IncidentEscalated.make g0 2 2 "lead" "slow" IncidentSeverity.low
      IncidentSeverity.high).version = 1 ∧
    (IncidentSlaBreached.make g0 2 2 "ack" 15 25 "major").version = 1 := by
  have h := version_defaults_to_one_except_model_deployed g0
  refine ⟨h.1 1 1 "boot" LogLevel.info "svc" [], ?_,
          h.2.2.1 1 "svc" ⟨1/2, 1/2, 7/10⟩ "stat" "high" [] none, ?_, ?_, ?_, ?_,
          h.2.2.2.2.2.2.2.1 2 2 "t" "d" IncidentSeverity.high "src" false,
          h.2.2.2.2.2.2.2.2.1 2 2 "oncall" 30 "",
          h.2.2.2.2.2.2.2.2.2.1 2 2 "lead" "slow" IncidentSeverity.low IncidentSeverity.high,
          h.2.2.2.2.2.2.2.2.2.2 2 2 "ack" 15 25 "major"⟩
  · exact h.2.1 2 2 LogLevel.error (1/2) "v1" 10 lccSample
      (by norm_num [LogClassificationCompleted.make, lccSample, g0])
  · exact h.2.2.2.1 1 "p" "d" 4 "freq" [] [21] (some 88) lpiRootSample
      (by norm_num [LogPatternIdentified.make, lpiRootSample, g0])
  · exact h.2.2.2.2.1 9 5 "m" "rf" 1000 [] [] mtsSample
      (by norm_num [ModelTrainingStarted.make, mtsSample, g0])
  · exact h.2.2.2.2.2.1 1 1 "m" (19/20) 120 [] mtcSample
      (by norm_num [ModelTrainingCompleted.make, mtcSample, g0])
  · exact h.2.2.2.2.2.2.1 3 3 "m" (3/4) (9/10) [] mpdSample
      (by norm_num [ModelPerformanceDegraded.make, mpdSample, g0])

/-- C10: for every concrete event, the metadata bag of a successfully
constructed value is empty — no constructor accepts metadata (the field is
excluded from construction parameters) and the base post-construction step
sets it to the empty bag, so a non-empty bag can only arise from a later
middleware-produced copy. -/
theorem metadata_empty_after_construction (g : Gen) :
    (∀ (a lid : UUID) (msg : String) (lvl : LogLevel) (src : String) (tags : List String),
      (LogEntryCreated.make g a lid msg lvl src tags).metadata = []) ∧
    (∀ (a lid : UUID) (lvl : LogLevel) (conf : ℚ) (mv : String) (pt : Int)
        (ev : LogClassificationCompleted),
      LogClassificationCompleted.make g a lid lvl conf mv pt = .ok ev →
      ev.metadata = []) ∧
    (∀ (a : UUID) (src : String) (sc : AnomalyScore) (dm sev : String)
        (logs : List UUID) (root : Option UUID),
      (AnomalyDetected.make g a src sc dm sev logs root).metadata = []) ∧
    (∀ (a : UUID) (pid desc : String) (freq : Int) (dm : String)
        (srcs : List String) (ids : List UUID) (root : Option UUID)
        (ev : LogPatternIdentified),
      LogPatternIdentified.make g a pid desc freq dm srcs ids root = .ok ev →
      ev.metadata = []) ∧
    (∀ (a mid : UUID) (mn mt : String) (sz : Int) (hp tc : Metadata)
        (ev : ModelTrainingStarted),
      ModelTrainingStarted.make g a mid mn mt sz hp tc = .ok ev → ev.metadata = []) ∧
    (∀ (a mid : UUID) (mn : String) (acc : ℚ) (dur : Int) (mm : Metadata)
        (ev : ModelTrainingCompleted),
      ModelTrainingCompleted.make g a mid mn acc dur mm = .ok ev → ev.metadata = []) ∧
    (∀ (a mid : UUID) (mn vs env : String) (pv : Option String),
      (ModelDeployed.make g a mid mn vs env pv).metadata = []) ∧
    (∀ (a mid : UUID) (mn : String) (ca ta : ℚ) (dm : Metadata)
        (ev : ModelPerformanceDegraded),
      ModelPerformanceDegraded.make g a mid mn ca ta dm = .ok ev → ev.metadata = []) ∧
    (∀ (a iid : UUID) (t d : String) (sev : IncidentSeverity) (src : String) (ac : Bool),
      (IncidentCreated.make g a iid t d sev src ac).metadata = []) ∧
    (∀ (a iid : UUID) (rb : String) (rt : Int) (rn : String),
      (IncidentResolved.make g a iid rb rt rn).metadata = []) ∧
    (∀ (a iid : UUID) (eto er : String) (ps ns : IncidentSeverity),
      (IncidentEscalated.make g a iid eto er ps ns).metadata = []) ∧
    (∀ (a iid : UUID) (st : String) (tm am : Int) (bs : String),
      (IncidentSlaBreached.make g a iid st tm am bs).metadata = []) := by
  refine ⟨fun a lid msg lvl src tags => rfl, ?_,
          fun a src sc dm sev logs root => rfl, ?_, ?_, ?_,
          fun a mid mn vs env pv => rfl, ?_,
          fun a iid t d sev src ac => rfl,
          fun a iid rb rt rn => rfl,
          fun a iid eto er ps ns => rfl,
          fun a iid st tm am bs => rfl⟩
  · intro a lid lvl conf mv pt ev hev
    simp only [LogClassificationCompleted.make] at hev
    split at hev
    · exact Except.noConfusion hev
    · split at hev
      · exact Except.noConfusion hev
      · injection hev with h
        subst h
        rfl
  · intro a pid desc freq dm srcs ids root ev hev
    simp only [LogPatternIdentified.make] at hev
    split at hev
    · exact Except.noConfusion hev
    · injection hev with h
      subst h
      rfl
  · intro a mid mn mt sz hp tc ev hev
    simp only [ModelTrainingStarted.make] at hev
    split at hev
    · exact Except.noConfusion hev
    · injection hev with h
      subst h
      rfl
  · intro a mid mn acc dur mm ev hev
    simp only [ModelTrainingCompleted.make] at hev
    split at hev
    · exact Except.noConfusion hev
    · split at hev
      · exact Except.noConfusion hev
      · injection hev with h
        subst h
        rfl
  · intro a mid mn ca ta dm ev hev
    simp only [ModelPerformanceDegraded.make] at hev
    split at hev
    · exact Except.noConfusion hev
    · split at hev
      · exact Except.noConfusion hev
      · injection hev with h
        subst h
        rfl

/-- Witness for C10 at concrete inputs: each embedded constructor yields an
empty metadata bag. -/
theorem metadata_empty_after_construction_witness :
    (LogEntryCreated.make g0 1 1 "boot" LogLevel.info "svc" []).metadata = [] ∧
    lccSample.metadata = [] ∧
    (AnomalyDetected.make g0 1 "svc" ⟨1/2, 1/2, 7/10⟩ "stat" "high" [] none).metadata = [] ∧
    lpiRootSample.metadata = [] ∧
    mtsSample.metadata = [] ∧
    mtcSample.metadata = [] ∧
    (ModelDeployed.make g0 4 4 "test_model" "v1.0.0" "production" none).metadata = [] ∧
    mpdSample.metadata = [] ∧
    (IncidentCreated.make g0 2 2 "t" "d" IncidentSeverity.high "src" false).metadata = [] ∧
    (IncidentResolved.make g0 2 2 "oncall" 30 "").metadata = [] ∧
    (IncidentEscalated.make g0 2 2 "lead" "slow" IncidentSeverity.low
      IncidentSeverity.high).metadata = [] ∧
    (IncidentSlaBreached.make g0 2 2 "ack" 15 25 "major").metadata = [] := by
  have h := metadata_empty_after_construction g0
  refine ⟨h.1 1 1 "boot" LogLevel.info "svc" [], ?_,
          h.2.2.1 1 "svc" ⟨1/2, 1/2, 7/10⟩ "stat" "high" [] none, ?_, ?_, ?_,
          h.2.2.2.2.2.2.1 4 4 "test_model" "v1.0.0" "production" none, ?_,
          h.2.2.2.2.2.2.2.2.1 2 2 "t" "d" IncidentSeverity.high "src" false,
          h.2.2.2.2.2.2.2.2.2.1 2 2 "oncall" 30 "",
          h.2.2.2.2.2.2.2.2.2.2.1 2 2 "lead" "slow" IncidentSeverity.low IncidentSeverity.high,
          h.2.2.2.2.2.2.2.2.2.2.2 2 2 "ack" 15 25 "major"⟩
  · exact h.2.1 2 2 LogLevel.error (1/2) "v1" 10 lccSample
      (by norm_num [LogClassificationCompleted.make, lccSample, g0])
  · exact h.2.2.2.1 1 "p" "d" 4 "freq" [] [21] (some 88) lpiRootSample
      (by norm_num [LogPatternIdentified.make, lpiRootSample, g0])
  · exact h.2.2.2.2.1 9 5 "m" "rf" 1000 [] [] mtsSample
      (by norm_num [ModelTrainingStarted.make, mtsSample, g0])
  · exact h.2.2.2.2.2.1 1 1 "m" (19/20) 120 [] mtcSample
      (by norm_num [ModelTrainingCompleted.make, mtcSample, g0])
  · exact h.2.2.2.2.2.2.2.1 3 3 "m" (3/4) (9/10) [] mpdSample
      (by norm_num [ModelPerformanceDegraded.make, mpdSample, g0])
